import Mathlib

/-!
Shallow embedding of the NTFS-3G OneDrive plugin (`src/onedrive.c`).

The plugin is a flat set of guarded operations over host-owned inodes.
Host-library primitives (`ntfs_attr_open`, `ntfs_attr_pread`, ...) are
external collaborators and are modelled as oracle parameters: the embedding
captures exactly the plugin's own branching, clamping, looping, error
selection and resource accounting.

Machine integers: `s64` and `off_t` are modelled as `Int`, `size_t` as
`Nat`, with explicit wrapping (`toInt32`, `toInt64`, `toSizeT`) at the
points where the C code converts between them.  Bit-flag tests on the
inode (`MFT_RECORD_IS_DIRECTORY`, `FILE_ATTR_OFFLINE`, the `KnownSize`
nino flag) are modelled as `Bool` fields.
-/

namespace OneDrive

/-! Errno constants (Linux values; only their distinctness matters). -/

def EOPNOTSUPP : Int := 95

def EINVAL : Int := 22

def EREMOTE : Int := 66

def EIO_code : Int := 5

/-! Open-flag constants (POSIX). -/

def O_ACCMODE : Nat := 3

def O_RDONLY : Nat := 0

/-! Mode-bit constants (POSIX). -/

def S_IFDIR : Nat := 0o040000

def S_IFREG : Nat := 0o100000

/-- Reparse tag of OneDrive cloud placeholders.  Numeric value taken from
the ntfs-3g headers (external to this repository); every theorem below is
parametric in the tag through `gatePass`. -/
def IO_REPARSE_TAG_CLOUD : Nat := 0x9000001A

/-- Selector mask isolating the plugin-relevant bits of a reparse tag
(masking out the cloud sub-type nibble, so the whole tag family is
accepted).  Numeric value taken from the ntfs-3g headers. -/
def IO_REPARSE_PLUGIN_SELECT : Nat := 0xFFFF0FFF

/-- The reparse tag gate used at the head of every operation:
`!((tag ^ IO_REPARSE_TAG_CLOUD) & IO_REPARSE_PLUGIN_SELECT)`. -/
def gatePass (tag : Nat) : Bool :=
  ((tag ^^^ IO_REPARSE_TAG_CLOUD) &&& IO_REPARSE_PLUGIN_SELECT) == 0

/-! Integer conversions of the C code. -/

/-- Conversion of a wide value to C `int` (the functions' return type). -/
def toInt32 (x : Int) : Int := (x + 2 ^ 31) % 2 ^ 32 - 2 ^ 31

/-- Conversion of a value to `s64` / `off_t` (e.g. the `(off_t)size` cast). -/
def toInt64 (x : Int) : Int := (x + 2 ^ 63) % 2 ^ 64 - 2 ^ 63

/-- Conversion of an `s64` value to `size_t` (e.g. `size = max_read - offset`). -/
def toSizeT (x : Int) : Nat := (x % 2 ^ 64).toNat

/-- Arithmetic shift right on two's-complement values: `x >> n` equals
floor division by `2 ^ n`. -/
def asr (x : Int) (n : Nat) : Int := Int.fdiv x (2 ^ n)

/-- The host inode fields the plugin consumes: directory flag
(`ni->mrec->flags & MFT_RECORD_IS_DIRECTORY`), offline flag
(`ni->flags & FILE_ATTR_OFFLINE`), the `KnownSize` nino flag, and the
cached sizes `ni->data_size` / `ni->allocated_size` (both `s64`). -/
structure Inode where
  isDir : Bool
  offline : Bool
  knownSize : Bool
  data_size : Int
  allocated_size : Int
deriving Repr, DecidableEq

/-- The reparse descriptor; the plugin reads only its tag (`le32`). -/
structure ReparsePoint where
  reparse_tag : Nat
deriving Repr, DecidableEq

/-- The `struct stat` fields written by `onedrive_getattr`. -/
structure Stat where
  st_mode : Nat
  st_size : Int
  st_blocks : Int
  st_nlink : Nat
deriving Repr, DecidableEq

/-- Result of `onedrive_getattr`: the returned `int`, the (possibly
updated) caller stat buffer and inode, and how many times the `$I30`
index-allocation attribute was opened (`ntfs_attr_open` calls) and
closed (`ntfs_attr_close` calls). -/
structure GetattrResult where
  res : Int
  stbuf : Option Stat
  ni : Option Inode
  i30_attempts : Nat
  i30_closes : Nat
deriving Repr, DecidableEq

/-- Shallow embedding of `onedrive_getattr`.  The oracle `attrOpenI30`
is the outcome of `ntfs_attr_open(ni, AT_INDEX_ALLOCATION, I30, 4)`:
`some (d, a)` means a handle whose `data_size` is `d` and
`allocated_size` is `a`; `none` means the open failed (NULL). -/
def onedrive_getattr (ni : Option Inode) (reparse : Option ReparsePoint)
    (stbuf : Option Stat) (attrOpenI30 : Option (Int × Int)) : GetattrResult :=
  match ni, reparse, stbuf with
  | some n, some rp, some st =>
    if gatePass rp.reparse_tag then
      if n.isDir then
        if n.knownSize then
          ⟨0, some { st with st_mode := S_IFDIR ||| 0o555,
                             st_size := n.data_size,
                             st_blocks := asr n.allocated_size 9,
                             st_nlink := 1 },
            some n, 0, 0⟩
        else
          match attrOpenI30 with
          | some da =>
            ⟨0, some { st with st_mode := S_IFDIR ||| 0o555,
                               st_size := da.1,
                               st_blocks := asr da.2 9,
                               st_nlink := 1 },
              some { n with data_size := da.1,
                            allocated_size := da.2,
                            knownSize := true }, 1, 1⟩
          | none =>
            ⟨0, some { st with st_mode := S_IFDIR ||| 0o555,
                               st_size := n.data_size,
                               st_blocks := asr n.allocated_size 9,
                               st_nlink := 1 },
              some n, 1, 0⟩
      else
        ⟨0, some { st with st_mode := S_IFREG ||| 0o555,
                           st_size := n.data_size,
                           st_blocks := asr (n.data_size + 511) 9 },
          some n, 0, 0⟩
    else ⟨-EOPNOTSUPP, stbuf, ni, 0, 0⟩
  | _, _, _ => ⟨-EOPNOTSUPP, stbuf, ni, 0, 0⟩

/-- Shallow embedding of `onedrive_opendir`; `fiFlags` is `fi->flags`
(`none` models a NULL `fi`). -/
def onedrive_opendir (ni : Option Inode) (reparse : Option ReparsePoint)
    (fiFlags : Option Nat) : Int :=
  match ni, reparse, fiFlags with
  | some n, some rp, some flags =>
    if gatePass rp.reparse_tag && n.isDir && (flags &&& O_ACCMODE == O_RDONLY)
    then 0
    else -EOPNOTSUPP
  | _, _, _ => -EOPNOTSUPP

/-- Shallow embedding of `onedrive_release` (unconditionally 0). -/
def onedrive_release : Int := 0

/-- Shallow embedding of `onedrive_open` (the `fi` argument is unused in
the source). -/
def onedrive_open (ni : Option Inode) (reparse : Option ReparsePoint) : Int :=
  match ni, reparse with
  | some n, some rp =>
    if gatePass rp.reparse_tag && !n.isDir then
      if n.offline then -EREMOTE else 0
    else -EOPNOTSUPP
  | _, _ => -EOPNOTSUPP

/-- Result of `onedrive_create`: the returned inode pointer, the errno
value the plugin itself stores (`none` = untouched), and whether
`ntfs_create` was invoked. -/
structure CreateResult where
  ni : Option Inode
  errno_out : Option Int
  delegated : Bool
deriving Repr, DecidableEq

/-- Shallow embedding of `onedrive_create`.  `typ` is the `mode_t type`
argument; the oracle `ntfs_create_res` is the outcome of
`ntfs_create(dir_ni, securid, name, name_len, type)` (the securid and
name arguments are passed through and absorbed into the oracle). -/
def onedrive_create (dir_ni : Option Inode) (reparse : Option ReparsePoint)
    (typ : Nat) (ntfs_create_res : Option Inode) : CreateResult :=
  match dir_ni, reparse with
  | some dn, some rp =>
    if gatePass rp.reparse_tag && dn.isDir && (typ == S_IFREG || typ == S_IFDIR)
    then ⟨ntfs_create_res, none, true⟩
    else ⟨none, some EOPNOTSUPP, false⟩
  | _, _ => ⟨none, some EOPNOTSUPP, false⟩

/-- Result of an operation that either delegates to one host primitive or
rejects: the returned `int` and whether the primitive was invoked. -/
structure DelegResult where
  res : Int
  delegated : Bool
deriving Repr, DecidableEq

/-- Shallow embedding of `onedrive_link`; the oracle `ntfs_link_res` is
the result of `ntfs_link(ni, dir_ni, name, name_len)`. -/
def onedrive_link (dir_ni : Option Inode) (reparse : Option ReparsePoint)
    (ntfs_link_res : Int) : DelegResult :=
  match dir_ni, reparse with
  | some dn, some rp =>
    if gatePass rp.reparse_tag && dn.isDir then ⟨ntfs_link_res, true⟩
    else ⟨-EOPNOTSUPP, false⟩
  | _, _ => ⟨-EOPNOTSUPP, false⟩

/-- Shallow embedding of `onedrive_unlink`; the oracle `ntfs_delete_res`
is the result of `ntfs_delete(dir_ni->vol, pathname, ni, dir_ni, name,
name_len)`. -/
def onedrive_unlink (dir_ni : Option Inode) (reparse : Option ReparsePoint)
    (ntfs_delete_res : Int) : DelegResult :=
  match dir_ni, reparse with
  | some dn, some rp =>
    if gatePass rp.reparse_tag && dn.isDir then ⟨ntfs_delete_res, true⟩
    else ⟨-EOPNOTSUPP, false⟩
  | _, _ => ⟨-EOPNOTSUPP, false⟩

/-- Shallow embedding of `onedrive_readdir`.  `pos`, `fillctx`, `filldir`
model the NULL-ness of the corresponding pointers; `ntfs_readdir_fails`
is the oracle for `ntfs_readdir` returning nonzero, and `errno` the
ambient errno in that case. -/
def onedrive_readdir (ni : Option Inode) (reparse : Option ReparsePoint)
    (pos : Bool) (fillctx : Bool) (filldir : Bool)
    (ntfs_readdir_fails : Bool) (errno : Int) : DelegResult :=
  match ni, reparse with
  | some n, some rp =>
    if pos && fillctx && filldir && n.isDir && gatePass rp.reparse_tag then
      ⟨if ntfs_readdir_fails then -errno else 0, true⟩
    else ⟨-EOPNOTSUPP, false⟩
  | _, _ => ⟨-EOPNOTSUPP, false⟩

/-- The `while (size > 0)` loop of `onedrive_read`.  `pread` is the
oracle for `ntfs_attr_pread(na, offset, size, buf + total)`: the byte
count it returns for a request at `offset` of length `size` (the data
itself plays no role in any control decision).  Returns `.ok total`
when the loop drains `size` (the code then falls through to the `ok:`
label) and `.error res` on the fatal-read path.  `size -= ret` happens
only when `0 < ret ≤ (s64)size`, where truncated subtraction agrees
with `size_t` arithmetic. -/
def readLoop (pread : Int → Nat → Int) (errno : Int) (offset : Int)
    (size : Nat) (total : Int) : Except Int Int :=
  if h0 : size = 0 then .ok total
  else if hf : pread offset size ≤ 0 ∨ toInt64 (size : Int) < pread offset size
  then .error (if pread offset size < 0 then -errno else -EIO_code)
  else
    readLoop pread errno (offset + pread offset size)
      (size - (pread offset size).toNat) (total + pread offset size)
termination_by size
decreasing_by
  push_neg at hf
  omega

/-- The `while (size > 0)` loop of `onedrive_write`; `pwrite` is the
oracle for `ntfs_attr_pwrite(na, offset, size, buf + total)`.  Any
non-positive return is fatal.  `size -= ret` is modelled by truncated
subtraction, which agrees with `size_t` arithmetic since
`ntfs_attr_pwrite` returns at most the requested count (its contract). -/
def writeLoop (pwrite : Int → Nat → Int) (errno : Int) (offset : Int)
    (size : Nat) (total : Int) : Except Int Int :=
  if h0 : size = 0 then .ok total
  else if hf : pwrite offset size ≤ 0
  then .error (if pwrite offset size < 0 then -errno else -EIO_code)
  else
    writeLoop pwrite errno (offset + pwrite offset size)
      (size - (pwrite offset size).toNat) (total + pwrite offset size)
termination_by size
decreasing_by
  push_neg at hf
  omega

/-- Conversion of a loop outcome to the returned `int`: a drained loop
reaches `res = total` (an `s64`-to-`int` assignment), an error path
stored its `int` error code directly. -/
def finishRes : Except Int Int → Int
  | .ok t => toInt32 t
  | .error e => e

/-- Result of read/write/truncate: the returned `int`, and how many
data-attribute handles were opened (`ntfs_attr_open` returning non-NULL)
and closed (`ntfs_attr_close`) during the call. -/
structure RWResult where
  res : Int
  opens : Nat
  closes : Nat
deriving Repr, DecidableEq

/-- Shallow embedding of `onedrive_read`.  `buf` models the NULL-ness of
the destination buffer; `attrOpenData` is the oracle for
`ntfs_attr_open(ni, AT_DATA, NULL, 0)` — `some d` is a handle with
`data_size = d` (`max_read`), `none` a failed open; `errno` is the
ambient errno whenever the code reads it. -/
def onedrive_read (ni : Option Inode) (reparse : Option ReparsePoint)
    (buf : Bool) (size : Nat) (offset : Int) (attrOpenData : Option Int)
    (pread : Int → Nat → Int) (errno : Int) : RWResult :=
  match ni, reparse with
  | some _, some rp =>
    if buf && gatePass rp.reparse_tag then
      match attrOpenData with
      | none => ⟨-errno, 0, 0⟩
      | some max_read =>
        if max_read < offset + toInt64 (size : Int) then
          if max_read < offset then
            ⟨finishRes (.ok 0), 1, 1⟩
          else
            ⟨finishRes (readLoop pread errno offset
                (toSizeT (max_read - offset)) 0), 1, 1⟩
        else
          ⟨finishRes (readLoop pread errno offset size 0), 1, 1⟩
    else ⟨-EINVAL, 0, 0⟩
  | _, _ => ⟨-EINVAL, 0, 0⟩

/-- Shallow embedding of `onedrive_write`.  `buf` models the NULL-ness of
the source buffer; `attrOpenOk` is the oracle for
`ntfs_attr_open(ni, AT_DATA, NULL, 0)` succeeding. -/
def onedrive_write (ni : Option Inode) (reparse : Option ReparsePoint)
    (buf : Bool) (size : Nat) (offset : Int) (attrOpenOk : Bool)
    (pwrite : Int → Nat → Int) (errno : Int) : RWResult :=
  match ni, reparse with
  | some n, some rp =>
    if buf && !n.isDir && gatePass rp.reparse_tag then
      if attrOpenOk then
        ⟨finishRes (writeLoop pwrite errno offset size 0), 1, 1⟩
      else ⟨-errno, 0, 0⟩
    else ⟨-EINVAL, 0, 0⟩
  | _, _ => ⟨-EINVAL, 0, 0⟩

/-- Shallow embedding of `onedrive_truncate`.  `attrOpenOk` is the oracle
for `ntfs_attr_open(ni, AT_DATA, NULL, 0)` succeeding, and
`ntfs_attr_truncate` the oracle for the host truncate primitive applied
to the target size. -/
def onedrive_truncate (ni : Option Inode) (reparse : Option ReparsePoint)
    (size : Int) (attrOpenOk : Bool) (ntfs_attr_truncate : Int → Int)
    (errno : Int) : RWResult :=
  match ni, reparse with
  | some n, some rp =>
    if !n.isDir && gatePass rp.reparse_tag then
      if attrOpenOk then
        ⟨ntfs_attr_truncate size, 1, 1⟩
      else ⟨-errno, 0, 0⟩
    else ⟨-EINVAL, 0, 0⟩
  | _, _ => ⟨-EINVAL, 0, 0⟩

/-! Concrete values used by the witnesses. -/

/-- A tag accepted by the gate (the plain OneDrive cloud tag). -/
def tagCloud : Nat := 0x9000001A

/-- A tag rejected by the gate. -/
def tagBad : Nat := 0

/-- A concrete plain-file inode. -/
def fileInode : Inode :=
  { isDir := false, offline := false, knownSize := false,
    data_size := 513, allocated_size := 1024 }

/-- A concrete directory inode with unknown size. -/
def dirInode : Inode :=
  { isDir := true, offline := false, knownSize := false,
    data_size := 100, allocated_size := 512 }

/-- A zeroed stat buffer. -/
def stat0 : Stat := { st_mode := 0, st_size := 0, st_blocks := 0, st_nlink := 0 }

/-! Helper lemmas. -/

/-- On nonnegative values the arithmetic shift is Euclidean division. -/
theorem asr_nonneg_eq (x : Int) (n : Nat) (h : 0 ≤ x) : asr x n = x / 2 ^ n := by
  unfold asr
  rw [Int.fdiv_eq_tdiv h (by positivity), Int.tdiv_eq_ediv h (by positivity)]

/-- `toInt32` is the identity on `int`-range values. -/
theorem toInt32_eq_self (x : Int) (h0 : -2 ^ 31 ≤ x) (h1 : x < 2 ^ 31) :
    toInt32 x = x := by
  unfold toInt32
  omega

/-- `toInt64` is the identity on `s64`-range values. -/
theorem toInt64_eq_self (x : Int) (h0 : -2 ^ 63 ≤ x) (h1 : x < 2 ^ 63) :
    toInt64 x = x := by
  unfold toInt64
  omega

/-- `toSizeT` on a nonnegative in-range value is `Int.toNat`. -/
theorem toSizeT_eq_toNat (x : Int) (h0 : 0 ≤ x) (h1 : x < 2 ^ 64) :
    (toSizeT x : Int) = x := by
  unfold toSizeT
  omega

/-- When the underlying pread always transfers the full requested count,
the read loop drains its size in one round and accumulates it. -/
theorem readLoop_full (pread : Int → Nat → Int) (errno : Int)
    (hp : ∀ o s, pread o s = (s : Int)) (offset total : Int) (size : Nat)
    (hs : (size : Int) < 2 ^ 63) :
    readLoop pread errno offset size total = .ok (total + size) := by
  rcases Nat.eq_zero_or_pos size with h0 | h0
  · subst h0
    rw [readLoop]
    simp
  · have ht : toInt64 (size : Int) = (size : Int) :=
      toInt64_eq_self _ (by omega) hs
    rw [readLoop]
    rw [dif_neg (by omega : ¬ size = 0)]
    rw [dif_neg (by rw [hp, ht]; push_neg; omega)]
    rw [hp]
    have hz : size - ((size : Int)).toNat = 0 := by simp
    rw [hz, readLoop]
    simp

/-! Claim theorems. -/

/-- C2: for a read that passes the gate and opens the data attribute
(size `d`): an offset at or past `d` yields a zero-byte success; an
offset below `d` with `offset + size` past `d` yields exactly
`d - offset` bytes (when the underlying reads transfer in full); a
fully in-range span yields exactly `size` bytes. -/
theorem C2_read_bounds (n : Inode) (tag : Nat) (size : Nat)
    (offset d errno : Int) (pread : Int → Nat → Int)
    (hgate : gatePass tag = true)
    (hpread : ∀ o s, pread o s = (s : Int))
    (hoff : 0 ≤ offset) (hd0 : 0 ≤ d) (hd31 : d < 2 ^ 31)
    (hsz : (size : Int) < 2 ^ 31) :
    (d ≤ offset →
      (onedrive_read (some n) (some ⟨tag⟩) true size offset (some d)
        pread errno).res = 0) ∧
    (offset < d → d < offset + size →
      (onedrive_read (some n) (some ⟨tag⟩) true size offset (some d)
        pread errno).res = d - offset) ∧
    (offset + size ≤ d →
      (onedrive_read (some n) (some ⟨tag⟩) true size offset (some d)
        pread errno).res = size) := by
  have ht : toInt64 (size : Int) = (size : Int) :=
    toInt64_eq_self _ (by omega) (by omega)
  have hread : onedrive_read (some n) (some ⟨tag⟩) true size offset (some d)
        pread errno
      = if d < offset + toInt64 (size : Int) then
          if d < offset then ⟨finishRes (.ok 0), 1, 1⟩
          else ⟨finishRes (readLoop pread errno offset
                  (toSizeT (d - offset)) 0), 1, 1⟩
        else ⟨finishRes (readLoop pread errno offset size 0), 1, 1⟩ := by
    simp [onedrive_read, hgate]
  refine ⟨?_, ?_, ?_⟩
  · intro h1
    rw [hread, ht]
    by_cases hb : d < offset + (size : Int)
    · rw [if_pos hb]
      by_cases hb2 : d < offset
      · rw [if_pos hb2]
        simp [finishRes, toInt32]
      · rw [if_neg hb2]
        have he : d - offset = 0 := by omega
        have hz : toSizeT (d - offset) = 0 := by
          rw [he]
          rfl
        rw [hz, readLoop_full pread errno hpread _ _ _ (by omega)]
        simp [finishRes, toInt32]
    · rw [if_neg hb]
      have hz : size = 0 := by omega
      subst hz
      rw [readLoop_full pread errno hpread _ _ _ (by omega)]
      simp [finishRes, toInt32]
  · intro h1 h2
    rw [hread, ht, if_pos (by omega), if_neg (by omega)]
    have hsz2 : (toSizeT (d - offset) : Int) = d - offset :=
      toSizeT_eq_toNat _ (by omega) (by omega)
    rw [readLoop_full pread errno hpread _ _ _ (by rw [hsz2]; omega)]
    simp only [finishRes, zero_add]
    rw [hsz2, toInt32_eq_self _ (by omega) (by omega)]
  · intro h1
    rw [hread, ht, if_neg (by omega)]
    rw [readLoop_full pread errno hpread _ _ _ (by omega)]
    simp only [finishRes, zero_add]
    rw [toInt32_eq_self _ (by omega) (by omega)]

/-- C2 witness: with data size 2, a read of 4 bytes at offset 5 returns
0, and a read of 4 bytes at offset 0 returns 2 = data size - offset. -/
theorem C2_read_bounds_witness :
    ((gatePass tagCloud = true ∧ (2 : Int) ≤ 5) ∧
      (onedrive_read (some fileInode) (some ⟨tagCloud⟩) true 4 5 (some 2)
          (fun _ s => (s : Int)) 5).res = 0) ∧
    (((0 : Int) < 2 ∧ (2 : Int) < 0 + (4 : Nat)) ∧
      (onedrive_read (some fileInode) (some ⟨tagCloud⟩) true 4 0 (some 2)
          (fun _ s => (s : Int)) 5).res = 2 - 0) :=
  ⟨⟨⟨by decide, by decide⟩,
    (C2_read_bounds fileInode tagCloud 4 5 2 5 (fun _ s => (s : Int))
        (by decide) (fun _ _ => rfl) (by decide) (by decide) (by decide)
        (by decide)).1 (by decide)⟩,
   ⟨⟨by decide, by decide⟩,
    (C2_read_bounds fileInode tagCloud 4 0 2 5 (fun _ s => (s : Int))
        (by decide) (fun _ _ => rfl) (by decide) (by decide) (by decide)
        (by decide)).2.1 (by decide) (by decide)⟩⟩

/-- C3: every successful getattr on a non-directory inode reports
`st_size` equal to the inode's cached data size and `st_blocks` equal to
`ceil(data_size / 512)` — characterized as the unique nonnegative `b`
with `data_size ≤ 512 * b < data_size + 512`. -/
theorem C3_getattr_file_size_blocks (n : Inode) (tag : Nat) (st : Stat)
    (o : Option (Int × Int)) (hgate : gatePass tag = true)
    (hdir : n.isDir = false) (hd : 0 ≤ n.data_size) :
    (onedrive_getattr (some n) (some ⟨tag⟩) (some st) o).res = 0 ∧
    ∃ st2, (onedrive_getattr (some n) (some ⟨tag⟩) (some st) o).stbuf = some st2 ∧
      st2.st_size = n.data_size ∧
      0 ≤ st2.st_blocks ∧ n.data_size ≤ 512 * st2.st_blocks ∧
      512 * st2.st_blocks < n.data_size + 512 := by
  have hres : onedrive_getattr (some n) (some ⟨tag⟩) (some st) o =
      ⟨0, some { st with st_mode := S_IFREG ||| 0o555,
                         st_size := n.data_size,
                         st_blocks := asr (n.data_size + 511) 9 },
        some n, 0, 0⟩ := by
    simp [onedrive_getattr, hgate, hdir]
  rw [hres]
  refine ⟨rfl, _, rfl, rfl, ?_, ?_, ?_⟩ <;>
    rw [asr_nonneg_eq _ _ (by omega)] <;> norm_num <;> omega

/-- C3 witness: the concrete file inode of size 513. -/
theorem C3_getattr_file_size_blocks_witness :
    (gatePass tagCloud = true ∧ fileInode.isDir = false ∧ 0 ≤ fileInode.data_size) ∧
    ((onedrive_getattr (some fileInode) (some ⟨tagCloud⟩) (some stat0) none).res = 0 ∧
     ∃ st2, (onedrive_getattr (some fileInode) (some ⟨tagCloud⟩) (some stat0) none).stbuf
         = some st2 ∧
       st2.st_size = fileInode.data_size ∧
       0 ≤ st2.st_blocks ∧ fileInode.data_size ≤ 512 * st2.st_blocks ∧
       512 * st2.st_blocks < fileInode.data_size + 512) :=
  ⟨⟨by decide, by decide, by decide⟩,
   C3_getattr_file_size_blocks fileInode tagCloud stat0 none
     (by decide) (by decide) (by decide)⟩

/-- C6: on a gate-passing non-directory inode, open fails with the
dedicated `-EREMOTE` code exactly when the offline flag is set and
succeeds (0) when it is clear; `EREMOTE` is distinct from the generic
I/O error code. -/
theorem C6_open_offline (n : Inode) (tag : Nat)
    (hgate : gatePass tag = true) (hdir : n.isDir = false) :
    (n.offline = true → onedrive_open (some n) (some ⟨tag⟩) = -EREMOTE) ∧
    (n.offline = false → onedrive_open (some n) (some ⟨tag⟩) = 0) ∧
    -EREMOTE ≠ -EIO_code ∧ (-EREMOTE : Int) < 0 := by
  refine ⟨?_, ?_, by decide, by decide⟩ <;> intro hoff <;>
    simp [onedrive_open, hgate, hdir, hoff]

/-- C6 witness: offline file inode fails with -EREMOTE; clearing the
flag makes open succeed. -/
theorem C6_open_offline_witness :
    ((gatePass tagCloud = true ∧ fileInode.isDir = false) ∧
      onedrive_open (some { fileInode with offline := true }) (some ⟨tagCloud⟩)
        = -EREMOTE) ∧
    onedrive_open (some fileInode) (some ⟨tagCloud⟩) = 0 :=
  ⟨⟨⟨by decide, by decide⟩,
    (C6_open_offline { fileInode with offline := true } tagCloud
      (by decide) (by decide)).1 rfl⟩,
   (C6_open_offline fileInode tagCloud (by decide) (by decide)).2.1 rfl⟩

/-- C7: a write whose target inode is a directory fails with `-EINVAL`
for every tag, buffer, size, offset and oracle outcome, and opens no
data attribute. -/
theorem C7_write_directory_einval (n : Inode) (tag : Nat) (buf : Bool)
    (size : Nat) (offset : Int) (attrOpenOk : Bool)
    (pwrite : Int → Nat → Int) (errno : Int) (hdir : n.isDir = true) :
    onedrive_write (some n) (some ⟨tag⟩) buf size offset attrOpenOk pwrite errno
      = ⟨-EINVAL, 0, 0⟩ := by
  simp [onedrive_write, hdir]

/-- C7 witness: a concrete write to the directory inode. -/
theorem C7_write_directory_einval_witness :
    dirInode.isDir = true ∧
    onedrive_write (some dirInode) (some ⟨tagCloud⟩) true 8 0 true
      (fun _ s => (s : Int)) 5 = ⟨-EINVAL, 0, 0⟩ :=
  ⟨by decide,
   C7_write_directory_einval dirInode tagCloud true 8 0 true
     (fun _ s => (s : Int)) 5 (by decide)⟩

/-- C9: opendir succeeds (returns 0) iff all pointers are present, the
tag gate passes, the inode is a directory, and the access mode is
read-only; every other outcome is `-EOPNOTSUPP`. -/
theorem C9_opendir_iff (ni : Option Inode) (rp : Option ReparsePoint)
    (fiFlags : Option Nat) :
    (onedrive_opendir ni rp fiFlags = 0 ↔
      ∃ n t f, ni = some n ∧ rp = some ⟨t⟩ ∧ fiFlags = some f ∧
        gatePass t = true ∧ n.isDir = true ∧ f &&& O_ACCMODE = O_RDONLY) ∧
    (onedrive_opendir ni rp fiFlags = 0 ∨
      onedrive_opendir ni rp fiFlags = -EOPNOTSUPP) := by
  rcases ni with _ | n <;> rcases rp with _ | r <;> rcases fiFlags with _ | f <;>
    simp only [onedrive_opendir, EOPNOTSUPP] <;>
    try exact ⟨by simp, Or.inr trivial⟩
  rcases r with ⟨t⟩
  by_cases hg : gatePass t <;> by_cases hd : n.isDir <;>
    by_cases ha : f &&& O_ACCMODE = O_RDONLY <;>
    simp [hg, hd, ha]

/-- C10: every successful getattr reports a mode whose permission bits
are exactly 0555, the mode being `S_IFDIR ||| 0555` for directories and
`S_IFREG ||| 0555` for plain files. -/
theorem C10_mode_bits (ni : Option Inode) (rp : Option ReparsePoint)
    (stbuf : Option Stat) (o : Option (Int × Int))
    (h : (onedrive_getattr ni rp stbuf o).res = 0) :
    ∃ st, (onedrive_getattr ni rp stbuf o).stbuf = some st ∧
      st.st_mode &&& 0o777 = 0o555 ∧
      (st.st_mode = S_IFDIR ||| 0o555 ∨ st.st_mode = S_IFREG ||| 0o555) := by
  rcases ni with _ | n <;> rcases rp with _ | r <;> rcases stbuf with _ | st <;>
    simp only [onedrive_getattr] at h ⊢ <;>
    try simp [EOPNOTSUPP] at h
  by_cases hg : gatePass r.reparse_tag
  · simp only [hg, if_true] at h ⊢
    by_cases hd : n.isDir
    · simp only [hd, if_true] at h ⊢
      by_cases hk : n.knownSize
      · simp only [hk, if_true]
        refine ⟨_, rfl, ?_, Or.inl rfl⟩
        show (S_IFDIR ||| 0o555) &&& 0o777 = 0o555
        decide
      · simp only [hk, Bool.false_eq_true, if_false]
        rcases o with _ | da
        · refine ⟨_, rfl, ?_, Or.inl rfl⟩
          show (S_IFDIR ||| 0o555) &&& 0o777 = 0o555
          decide
        · refine ⟨_, rfl, ?_, Or.inl rfl⟩
          show (S_IFDIR ||| 0o555) &&& 0o777 = 0o555
          decide
    · simp only [hd, Bool.false_eq_true, if_false]
      refine ⟨_, rfl, ?_, Or.inr rfl⟩
      show (S_IFREG ||| 0o555) &&& 0o777 = 0o555
      decide
  · simp [hg, EOPNOTSUPP] at h

/-- C1 counterexample: a read whose reparse tag fails the gate test
returns `-EINVAL`, not the claimed `-EOPNOTSUPP`. -/
theorem C1_counterexample :
    gatePass tagBad = false ∧
    (onedrive_read (some fileInode) (some ⟨tagBad⟩) true 4 0 (some 513)
        (fun _ s => (s : Int)) 5).res = -EINVAL ∧
    (-EINVAL : Int) ≠ -EOPNOTSUPP := by
  refine ⟨by decide, by decide, by decide⟩

/-- C1 (amended): for every inode whose reparse tag fails the gate
test, getattr, opendir, open, create, link, unlink and readdir return
`-EOPNOTSUPP` with all state unchanged (no attribute opened, no host
primitive invoked, inode and stat buffer untouched); read, write and
truncate also leave state unchanged but return `-EINVAL` instead. -/
theorem C1_gate_rejection (n : Inode) (tag : Nat) (st : Stat)
    (o : Option (Int × Int)) (flags typ : Nat) (cres : Option Inode)
    (lres ures : Int) (pos fillctx filldir rdfail : Bool)
    (buf : Bool) (size : Nat) (offset : Int) (aod : Option Int)
    (pread pwrite : Int → Nat → Int) (errno : Int) (aok : Bool)
    (tsize : Int) (tr : Int → Int)
    (h : gatePass tag = false) :
    onedrive_getattr (some n) (some ⟨tag⟩) (some st) o
      = ⟨-EOPNOTSUPP, some st, some n, 0, 0⟩ ∧
    onedrive_opendir (some n) (some ⟨tag⟩) (some flags) = -EOPNOTSUPP ∧
    onedrive_open (some n) (some ⟨tag⟩) = -EOPNOTSUPP ∧
    onedrive_create (some n) (some ⟨tag⟩) typ cres
      = ⟨none, some EOPNOTSUPP, false⟩ ∧
    onedrive_link (some n) (some ⟨tag⟩) lres = ⟨-EOPNOTSUPP, false⟩ ∧
    onedrive_unlink (some n) (some ⟨tag⟩) ures = ⟨-EOPNOTSUPP, false⟩ ∧
    onedrive_readdir (some n) (some ⟨tag⟩) pos fillctx filldir rdfail errno
      = ⟨-EOPNOTSUPP, false⟩ ∧
    onedrive_read (some n) (some ⟨tag⟩) buf size offset aod pread errno
      = ⟨-EINVAL, 0, 0⟩ ∧
    onedrive_write (some n) (some ⟨tag⟩) buf size offset aok pwrite errno
      = ⟨-EINVAL, 0, 0⟩ ∧
    onedrive_truncate (some n) (some ⟨tag⟩) tsize aok tr errno
      = ⟨-EINVAL, 0, 0⟩ := by
  refine ⟨?_, ?_, ?_, ?_, ?_, ?_, ?_, ?_, ?_, ?_⟩ <;>
    simp [onedrive_getattr, onedrive_opendir, onedrive_open, onedrive_create,
      onedrive_link, onedrive_unlink, onedrive_readdir, onedrive_read,
      onedrive_write, onedrive_truncate, h]

/-- C1 witness: the amended behavior at a concrete gate-failing tag. -/
theorem C1_gate_rejection_witness :
    gatePass tagBad = false ∧
    (onedrive_getattr (some fileInode) (some ⟨tagBad⟩) (some stat0) none
       = ⟨-EOPNOTSUPP, some stat0, some fileInode, 0, 0⟩ ∧
     onedrive_opendir (some fileInode) (some ⟨tagBad⟩) (some 0) = -EOPNOTSUPP ∧
     onedrive_open (some fileInode) (some ⟨tagBad⟩) = -EOPNOTSUPP ∧
     onedrive_create (some fileInode) (some ⟨tagBad⟩) S_IFREG none
       = ⟨none, some EOPNOTSUPP, false⟩ ∧
     onedrive_link (some fileInode) (some ⟨tagBad⟩) 3 = ⟨-EOPNOTSUPP, false⟩ ∧
     onedrive_unlink (some fileInode) (some ⟨tagBad⟩) 4 = ⟨-EOPNOTSUPP, false⟩ ∧
     onedrive_readdir (some fileInode) (some ⟨tagBad⟩) true true true false 5
       = ⟨-EOPNOTSUPP, false⟩ ∧
     onedrive_read (some fileInode) (some ⟨tagBad⟩) true 4 0 (some 513)
       (fun _ s => (s : Int)) 5 = ⟨-EINVAL, 0, 0⟩ ∧
     onedrive_write (some fileInode) (some ⟨tagBad⟩) true 4 0 true
       (fun _ s => (s : Int)) 5 = ⟨-EINVAL, 0, 0⟩ ∧
     onedrive_truncate (some fileInode) (some ⟨tagBad⟩) 0 true (fun _ => 0) 5
       = ⟨-EINVAL, 0, 0⟩) :=
  ⟨by decide,
   C1_gate_rejection fileInode tagBad stat0 none 0 S_IFREG none 3 4
     true true true false true 4 0 (some 513) (fun _ s => (s : Int))
     (fun _ s => (s : Int)) 5 true 0 (fun _ => 0) (by decide)⟩

/-- C4: in every execution of read, write and truncate, the number of
data-attribute handles opened equals the number closed — on the success
path and on every error path, no open handle survives the call. -/
theorem C4_attr_handles_closed (ni : Option Inode) (rp : Option ReparsePoint)
    (buf : Bool) (size : Nat) (offset : Int) (aod : Option Int)
    (pread pwrite : Int → Nat → Int) (errno : Int) (aok : Bool)
    (tsize : Int) (tr : Int → Int) :
    ((onedrive_read ni rp buf size offset aod pread errno).opens
      = (onedrive_read ni rp buf size offset aod pread errno).closes) ∧
    ((onedrive_write ni rp buf size offset aok pwrite errno).opens
      = (onedrive_write ni rp buf size offset aok pwrite errno).closes) ∧
    ((onedrive_truncate ni rp tsize aok tr errno).opens
      = (onedrive_truncate ni rp tsize aok tr errno).closes) := by
  refine ⟨?_, ?_, ?_⟩
  · rcases ni with _ | n <;> rcases rp with _ | r <;> rcases aod with _ | mr <;>
      simp only [onedrive_read] <;> split_ifs <;> rfl
  · rcases ni with _ | n <;> rcases rp with _ | r <;>
      simp only [onedrive_write] <;> split_ifs <;> rfl
  · rcases ni with _ | n <;> rcases rp with _ | r <;>
      simp only [onedrive_truncate] <;> split_ifs <;> rfl

/-- C5: getattr on a gate-passing directory inode returns link count 1
and the cached or freshly-captured size/allocation; a first successful
`$I30` query stores both sizes in the inode and sets the known-size
flag, and once that flag is set no further query is attempted. -/
theorem C5_getattr_dir (n : Inode) (tag : Nat) (st : Stat) (d a : Int)
    (hgate : gatePass tag = true) (hdir : n.isDir = true) :
    (n.knownSize = false →
      onedrive_getattr (some n) (some ⟨tag⟩) (some st) (some (d, a))
        = ⟨0, some { st with st_mode := S_IFDIR ||| 0o555, st_size := d,
                             st_blocks := asr a 9, st_nlink := 1 },
            some { n with data_size := d, allocated_size := a,
                          knownSize := true }, 1, 1⟩) ∧
    (n.knownSize = true → ∀ o2,
      onedrive_getattr (some n) (some ⟨tag⟩) (some st) o2
        = ⟨0, some { st with st_mode := S_IFDIR ||| 0o555,
                             st_size := n.data_size,
                             st_blocks := asr n.allocated_size 9,
                             st_nlink := 1 },
            some n, 0, 0⟩) := by
  refine ⟨?_, ?_⟩
  · intro hk
    simp [onedrive_getattr, hgate, hdir, hk]
  · intro hk o2
    simp [onedrive_getattr, hgate, hdir, hk]

/-- C5 witness: a fresh query on the concrete directory inode caches the
queried sizes, reports link count 1 and sets the known-size flag. -/
theorem C5_getattr_dir_witness :
    (gatePass tagCloud = true ∧ dirInode.isDir = true ∧
      dirInode.knownSize = false) ∧
    onedrive_getattr (some dirInode) (some ⟨tagCloud⟩) (some stat0)
        (some (4096, 8192))
      = ⟨0, some { stat0 with st_mode := S_IFDIR ||| 0o555, st_size := 4096,
                              st_blocks := asr 8192 9, st_nlink := 1 },
          some { dirInode with data_size := 4096, allocated_size := 8192,
                               knownSize := true }, 1, 1⟩ :=
  ⟨⟨by decide, by decide, by decide⟩,
   (C5_getattr_dir dirInode tagCloud stat0 4096 8192 (by decide) (by decide)).1
     rfl⟩

/-- C8: truncate returns `-EINVAL` whenever the inode is a directory or
the gate fails; otherwise, when the data attribute opens, it delegates
to the host truncate primitive, closes the attribute, and returns the
primitive's result verbatim. -/
theorem C8_truncate_behavior (n : Inode) (tag : Nat) (tsize : Int)
    (aok : Bool) (tr : Int → Int) (errno : Int) :
    ((n.isDir = true ∨ gatePass tag = false) →
      onedrive_truncate (some n) (some ⟨tag⟩) tsize aok tr errno
        = ⟨-EINVAL, 0, 0⟩) ∧
    (n.isDir = false → gatePass tag = true →
      onedrive_truncate (some n) (some ⟨tag⟩) tsize true tr errno
        = ⟨tr tsize, 1, 1⟩) := by
  refine ⟨?_, ?_⟩
  · rintro (hd | hg)
    · simp [onedrive_truncate, hd]
    · simp [onedrive_truncate, hg]
  · intro hd hg
    simp [onedrive_truncate, hd, hg]

/-- C8 witness: truncate on the concrete directory inode yields -EINVAL;
on the concrete file inode it returns the primitive's result (-7)
verbatim with the handle closed. -/
theorem C8_truncate_behavior_witness :
    ((dirInode.isDir = true ∨ gatePass tagCloud = false) ∧
      onedrive_truncate (some dirInode) (some ⟨tagCloud⟩) 10 true
        (fun _ => 0) 5 = ⟨-EINVAL, 0, 0⟩) ∧
    ((fileInode.isDir = false ∧ gatePass tagCloud = true) ∧
      onedrive_truncate (some fileInode) (some ⟨tagCloud⟩) 10 true
        (fun _ => -7) 5 = ⟨-7, 1, 1⟩) :=
  ⟨⟨Or.inl (by decide),
    (C8_truncate_behavior dirInode tagCloud 10 true (fun _ => 0) 5).1
      (Or.inl (by decide))⟩,
   ⟨⟨by decide, by decide⟩,
    (C8_truncate_behavior fileInode tagCloud 10 true (fun _ => -7) 5).2
      (by decide) (by decide)⟩⟩

/-- C10 witness: concrete successful getattr on the file inode. -/
theorem C10_mode_bits_witness :
    (onedrive_getattr (some fileInode) (some ⟨tagCloud⟩) (some stat0) none).res = 0 ∧
    ∃ st, (onedrive_getattr (some fileInode) (some ⟨tagCloud⟩) (some stat0) none).stbuf
        = some st ∧
      st.st_mode &&& 0o777 = 0o555 ∧
      (st.st_mode = S_IFDIR ||| 0o555 ∨ st.st_mode = S_IFREG ||| 0o555) :=
  ⟨by decide,
   C10_mode_bits (some fileInode) (some ⟨tagCloud⟩) (some stat0) none (by decide)⟩

end OneDrive
